import Mathlib

/-!
Shallow embedding of the ragflow concurrency core:
`rag/utils/redis_conn.py` (RedisDB key-value/stream client and
RedisDistributedLock) and `graphrag/general/index.py` (Dealer,
WithResolution, WithCommunity pipelines), together with theorems
checking the natural-language specification against it.
-/

/-- Value store for the string keyspace the lock operates on: a Redis
GET/SET/DEL view mapping each key to its stored string value, `none`
when the key is absent.  TTL-based expiry is not modelled (no clock in
this keyspace view); TTL only matters to the lock through the `ex`
argument of SET, which the claims do not time out. -/
def Store := String → Option String

/-- State of a `RedisDistributedLock` object, mirroring the fields set by
`RedisDistributedLock.__init__` in `rag/utils/redis_conn.py`: the lock
key, the fresh random token (`lock_value`), the TTL, the acquisition
timeout, and the `_lock_acquired` flag (called `lock_acquired` here). -/
structure RedisDistributedLock where
  lock_key : String
  lock_value : String
  ttl : Nat
  acquire_timeout : Nat
  lock_acquired : Bool

/-- Embedding of the static method `RedisDistributedLock.clean_lock`,
which runs `REDIS_CONN.REDIS.delete(lock_key)`: an unconditional DEL of
the lock key, with no token comparison of any kind. -/
def RedisDistributedLock.clean_lock (s : Store) (lock_key : String) : Store :=
  fun k => if k = lock_key then none else s k

/-- Embedding of one SET-NX attempt inside `acquire_lock`: `REDIS.set(key,
value, nx=True, ex=ttl)` stores the token and reports success only when
the key is currently absent; on success the source sets
`self._lock_acquired = True`.  Returns (updated lock object, updated
store, whether the attempt succeeded). -/
def RedisDistributedLock.acquire_attempt (l : RedisDistributedLock) (s : Store) :
    RedisDistributedLock × Store × Bool :=
  match s l.lock_key with
  | none =>
      ({ l with lock_acquired := true },
       fun k => if k = l.lock_key then some l.lock_value else s k,
       true)
  | some _ => (l, s, false)

/-- Embedding of `RedisDistributedLock.release_lock`.  If the lock was
never acquired (`_lock_acquired` false) the method logs and returns with
no store operation.  Otherwise it runs the Lua script
GET-compare-then-DEL as one atomic step: the key is deleted exactly when
its stored value equals this object's token; in every case the `finally`
clause clears `_lock_acquired`.  The `except` branch of the source only
logs, so the no-exception path modelled here is the full state change. -/
def RedisDistributedLock.release_lock (l : RedisDistributedLock) (s : Store) :
    RedisDistributedLock × Store :=
  if l.lock_acquired then
    ({ l with lock_acquired := false },
     if s l.lock_key = some l.lock_value then
       fun k => if k = l.lock_key then none else s k
     else s)
  else (l, s)

/-- Sleep duration used between failed acquisition attempts in
`acquire_lock`: `max(0.1, (end_time - time.time()) / 10)` seconds. -/
def backoff (endTime t : ℚ) : ℚ := max (1 / 10) ((endTime - t) / 10)

/-- Result of one run of `acquire_lock`: whether the lock was acquired,
the wall-clock time at which the method returned, and the trace of
sleeps performed between failed attempts, each recorded as (time at
which the sleep started, sleep duration). -/
structure AcquireResult where
  acquired : Bool
  finalTime : ℚ
  sleeps : List (ℚ × ℚ)
deriving DecidableEq

/-- Embedding of the retry loop of `RedisDistributedLock.acquire_lock`.
Time is explicit: `t` is the current wall clock, `endTime` is
`time.time() + self.acquire_timeout` computed on entry, each SET-NX
attempt itself takes no modelled time, and each `time.sleep` advances
the clock by exactly the slept amount.  The outcome of attempt number
`k` is abstracted as `env k` (it depends on what other processes did to
the shared key between attempts).  `fuel` bounds the recursion; the
loop body runs only while `t < endTime`, exactly as the source's
`while time.time() < end_time`, and the lemma
`acquireLoop_reaches_deadline` shows that with the fuel used by
`acquire_lock` the loop never stops for lack of fuel. -/
def acquireLoop (env : Nat → Bool) (endTime : ℚ) :
    Nat → ℚ → Nat → AcquireResult
  | 0, t, _ => ⟨false, t, []⟩
  | fuel + 1, t, attempt =>
      if t < endTime then
        if env attempt then ⟨true, t, []⟩
        else
          let s := backoff endTime t
          let r := acquireLoop env endTime fuel (t + s) (attempt + 1)
          ⟨r.acquired, r.finalTime, (t, s) :: r.sleeps⟩
      else ⟨false, t, []⟩

/-- Embedding of `RedisDistributedLock.acquire_lock`, started at wall
clock `t0` with acquisition timeout `timeout` (the source default is 10
seconds; `Dealer` uses the default).  Since every sleep lasts at least
0.1 s, `10 * timeout` rounded up plus one is enough fuel for the loop
to reach its deadline. -/
def acquire_lock (env : Nat → Bool) (t0 timeout : ℚ) : AcquireResult :=
  acquireLoop env (t0 + timeout) ((⌈timeout * 10⌉).toNat + 1) t0 1

/-- State of the shared store as seen by the `RedisDB` key-value
operations: the string keyspace, the SADD/SREM/SMEMBERS set keyspace,
and the ZADD/ZCOUNT/ZPOPMIN/ZRANGEBYSCORE sorted-set keyspace (member,
score pairs; each member occurs at most once per key).  Expiry
arguments are carried but not modelled, since no claim involves the
passage of key lifetimes. -/
structure KVStore where
  strings : String → Option String
  sets : String → List String
  zsets : String → List (String × ℚ)

/-- Outcome of one `RedisDB` method call: the returned value, the store
afterwards, how many times `self.__open__()` (reconnect) ran, and how
many log lines (warning or exception) were emitted.  No method ever
re-raises the transport error, which the embedding expresses by being a
total function into this record. -/
structure OpResult (α σ : Type) where
  result : α
  state : σ
  reconnects : Nat
  warnings : Nat

/-- Helper updating the string keyspace at one key. -/
def KVStore.setStr (st : KVStore) (k : String) (v : Option String) : KVStore :=
  { st with strings := fun k2 => if k2 = k then v else st.strings k2 }

/-- Helper updating the set keyspace at one key. -/
def KVStore.setSet (st : KVStore) (k : String) (v : List String) : KVStore :=
  { st with sets := fun k2 => if k2 = k then v else st.sets k2 }

/-- Helper updating the sorted-set keyspace at one key. -/
def KVStore.setZ (st : KVStore) (k : String) (v : List (String × ℚ)) : KVStore :=
  { st with zsets := fun k2 => if k2 = k then v else st.zsets k2 }

/-- EXISTS over the model keyspaces: a key exists when any keyspace
holds data for it. -/
def KVStore.hasKey (st : KVStore) (k : String) : Bool :=
  (st.strings k).isSome || !(st.sets k).isEmpty || !(st.zsets k).isEmpty

/-- Insertion of a scored member keeping the list ordered by ascending
score, used to model the score ordering of ZPOPMIN and ZRANGEBYSCORE. -/
def insertByScore (p : String × ℚ) : List (String × ℚ) → List (String × ℚ)
  | [] => [p]
  | q :: t => if p.2 ≤ q.2 then p :: q :: t else q :: insertByScore p t

/-- Sort of a scored-member list by ascending score. -/
def sortByScore (l : List (String × ℚ)) : List (String × ℚ) :=
  l.foldr insertByScore []

/-- Embedding of `RedisDB.exist`.  `redisNone` models `self.REDIS` being
`None` (initial connect failed): the method returns `None` silently.
`fails` models the underlying call raising: the method logs one
warning, reconnects once, and falls through returning `None`. -/
def RedisDB.exist (redisNone fails : Bool) (st : KVStore) (k : String) :
    OpResult (Option Nat) KVStore :=
  if redisNone then ⟨none, st, 0, 0⟩
  else if fails then ⟨none, st, 1, 1⟩
  else ⟨some (if st.hasKey k then 1 else 0), st, 0, 0⟩

/-- Embedding of `RedisDB.get`, with the same `self.REDIS is None` guard
and log-reconnect-return-None failure path as `RedisDB.exist`. -/
def RedisDB.get (redisNone fails : Bool) (st : KVStore) (k : String) :
    OpResult (Option String) KVStore :=
  if redisNone then ⟨none, st, 0, 0⟩
  else if fails then ⟨none, st, 1, 1⟩
  else ⟨st.strings k, st, 0, 0⟩

/-- Embedding of `RedisDB.set_obj`: SET of the JSON-serialized object
(serialization modelled as carrying the already-encoded string), True on
success; on failure one warning, one reconnect, False. -/
def RedisDB.set_obj (fails : Bool) (st : KVStore) (k obj : String) (_exp : Nat) :
    OpResult Bool KVStore :=
  if fails then ⟨false, st, 1, 1⟩
  else ⟨true, st.setStr k (some obj), 0, 0⟩

/-- Embedding of `RedisDB.set`: plain SET with expiry, True on success;
on failure one warning, one reconnect, False. -/
def RedisDB.set (fails : Bool) (st : KVStore) (k v : String) (_exp : Nat) :
    OpResult Bool KVStore :=
  if fails then ⟨false, st, 1, 1⟩
  else ⟨true, st.setStr k (some v), 0, 0⟩

/-- Embedding of `RedisDB.sadd`: SADD of one member, True on success; on
failure one warning, one reconnect, False. -/
def RedisDB.sadd (fails : Bool) (st : KVStore) (key member : String) :
    OpResult Bool KVStore :=
  if fails then ⟨false, st, 1, 1⟩
  else ⟨true,
        st.setSet key (if member ∈ st.sets key then st.sets key
                       else st.sets key ++ [member]),
        0, 0⟩

/-- Embedding of `RedisDB.srem`: SREM of one member, True on success; on
failure one warning, one reconnect, False. -/
def RedisDB.srem (fails : Bool) (st : KVStore) (key member : String) :
    OpResult Bool KVStore :=
  if fails then ⟨false, st, 1, 1⟩
  else ⟨true, st.setSet key ((st.sets key).filter (fun m => m ≠ member)), 0, 0⟩

/-- Embedding of `RedisDB.smembers`: returns the member list; on failure
one warning, one reconnect, None. -/
def RedisDB.smembers (fails : Bool) (st : KVStore) (key : String) :
    OpResult (Option (List String)) KVStore :=
  if fails then ⟨none, st, 1, 1⟩
  else ⟨some (st.sets key), st, 0, 0⟩

/-- Embedding of `RedisDB.zadd`: ZADD of one member with a score
(replacing any previous score of that member), True on success; on
failure one warning, one reconnect, False. -/
def RedisDB.zadd (fails : Bool) (st : KVStore) (key member : String) (score : ℚ) :
    OpResult Bool KVStore :=
  if fails then ⟨false, st, 1, 1⟩
  else ⟨true,
        st.setZ key ((st.zsets key).filter (fun p => p.1 ≠ member) ++ [(member, score)]),
        0, 0⟩

/-- Embedding of `RedisDB.zcount`: number of members whose score lies in
the closed range; on failure one warning, one reconnect, 0. -/
def RedisDB.zcount (fails : Bool) (st : KVStore) (key : String) (mn mx : ℚ) :
    OpResult Nat KVStore :=
  if fails then ⟨0, st, 1, 1⟩
  else ⟨((st.zsets key).filter (fun p => mn ≤ p.2 ∧ p.2 ≤ mx)).length, st, 0, 0⟩

/-- Embedding of `RedisDB.zpopmin`: removes and returns the `count`
lowest-scored members; on failure one warning, one reconnect, None. -/
def RedisDB.zpopmin (fails : Bool) (st : KVStore) (key : String) (count : Nat) :
    OpResult (Option (List (String × ℚ))) KVStore :=
  if fails then ⟨none, st, 1, 1⟩
  else
    ⟨some ((sortByScore (st.zsets key)).take count),
     st.setZ key ((sortByScore (st.zsets key)).drop count), 0, 0⟩

/-- Embedding of `RedisDB.zrangebyscore`: the members with score in the
closed range, in ascending score order; on failure one warning, one
reconnect, None. -/
def RedisDB.zrangebyscore (fails : Bool) (st : KVStore) (key : String) (mn mx : ℚ) :
    OpResult (Option (List (String × ℚ))) KVStore :=
  if fails then ⟨none, st, 1, 1⟩
  else ⟨some (sortByScore ((st.zsets key).filter (fun p => mn ≤ p.2 ∧ p.2 ≤ mx))),
        st, 0, 0⟩

/-- Embedding of `RedisDB.transaction`: a one-command MULTI/EXEC pipeline
performing SET-NX with expiry.  The source returns True whenever the
pipeline executes without raising, even when NX left the key untouched;
on failure one warning, one reconnect, False. -/
def RedisDB.transaction (fails : Bool) (st : KVStore) (key value : String) (_exp : Nat) :
    OpResult Bool KVStore :=
  if fails then ⟨false, st, 1, 1⟩
  else ⟨true,
        match st.strings key with
        | none => st.setStr key (some value)
        | some _ => st,
        0, 0⟩

/-- One entry of a Redis stream: its id and the string stored under the
single field `message` of its payload dict (`queue_product` stores
`json.dumps(message)` there and `Payload` applies `json.loads` on the
way out, so the JSON round trip is the identity on the message and is
modelled away). -/
structure StreamEntry where
  id : Nat
  message : String
deriving DecidableEq

/-- One entry of a consumer group's pending-entries list: the id of a
delivered-but-unacknowledged message and the consumer it was assigned
to. -/
structure PendingEntry where
  message_id : Nat
  consumer : String
deriving DecidableEq

/-- One consumer group of a stream: its name, the id of the last entry
delivered to the group, and its pending-entries list. -/
structure StreamGroup where
  name : String
  last_delivered : Nat
  pending : List PendingEntry
deriving DecidableEq

/-- A Redis stream: entries in ascending id order (ids are allocated
from `nextId`, starting at 1, and never reused) together with its
consumer groups. -/
structure RStream where
  nextId : Nat
  entries : List StreamEntry
  groups : List StreamGroup
deriving DecidableEq

/-- The stream keyspace: each queue name maps to its stream, `none` when
the stream does not exist yet. -/
def StreamStore := String → Option RStream

/-- Helper updating the stream keyspace at one queue name. -/
def updStream (ss : StreamStore) (q : String) (st : RStream) : StreamStore :=
  fun k => if k = q then some st else ss k

/-- XADD: appends an entry carrying the message, creating the stream
when absent (streams are auto-created on first append). -/
def xadd (s : Option RStream) (msg : String) : RStream :=
  match s with
  | none => { nextId := 2, entries := [⟨1, msg⟩], groups := [] }
  | some st =>
      { st with nextId := st.nextId + 1,
                entries := st.entries ++ [⟨st.nextId, msg⟩] }

/-- Insertion of a pending entry keeping the list ordered by ascending
message id, used to model the id ordering of XPENDING. -/
def insertById (p : PendingEntry) : List PendingEntry → List PendingEntry
  | [] => [p]
  | q :: t => if p.message_id ≤ q.message_id then p :: q :: t else q :: insertById p t

/-- Sort of a pending-entries list by ascending message id. -/
def sortById (l : List PendingEntry) : List PendingEntry :=
  l.foldr insertById []

/-- XREADGROUP with `count=1` and id `>` on one stream: the first entry
beyond the group's last-delivered id is handed to the consumer, the
group's last-delivered id advances to it and it joins the pending list
assigned to that consumer.  Returns `none` when no new entry exists
(the source then blocks up to 10 s and returns None; blocking time is
not modelled).  A missing group cannot happen on the source path, which
creates the group first. -/
def RStream.readGroupOne (st : RStream) (g c : String) :
    Option (StreamEntry × RStream) :=
  match st.groups.find? (fun gr => gr.name == g) with
  | none => none
  | some gr =>
      match st.entries.find? (fun e => decide (gr.last_delivered < e.id)) with
      | none => none
      | some e =>
          some (e,
            { st with groups := st.groups.map (fun gr2 =>
                if gr2.name == g then
                  { gr2 with last_delivered := e.id,
                             pending := gr2.pending ++ [⟨e.id, c⟩] }
                else gr2) })

/-- XACK as used by `Payload.ack`: removes the acknowledged id from the
group's pending list. -/
def RStream.xack (st : RStream) (g : String) (msg_id : Nat) : RStream :=
  { st with groups := st.groups.map (fun gr =>
      if gr.name == g then
        { gr with pending := gr.pending.filter (fun p => p.message_id ≠ msg_id) }
      else gr) }

/-- Embedding of `RedisDB.queue_product`: XADD of the message through a
pipeline, retried up to 3 times on failure.  When every attempt fails
the method logs each of the 3 attempts, performs no reconnect, and
returns False (the message is lost). -/
def RedisDB.queue_product (fails : Bool) (ss : StreamStore) (queue message : String) :
    OpResult Bool StreamStore :=
  if fails then ⟨false, ss, 0, 3⟩
  else ⟨true, updStream ss queue (xadd (ss queue) message), 0, 0⟩

/-- Embedding of `RedisDB.queue_consumer`.  On a generic transport
failure the method logs one exception and returns None without
reconnecting.  Otherwise: XINFO GROUPS raises a no-such-key error when
the stream is absent, which the source swallows silently (the `"key" in
str(e)` branch) returning None; with the stream present, the group is
created at id `0` (the stream origin) when missing, then one new entry
is read for the consumer; None is returned when the blocking read times
out with nothing new.  The result is the (id, message) pair the
`Payload` wrapper would expose. -/
def RedisDB.queue_consumer (fails : Bool) (ss : StreamStore)
    (queue_name group_name consumer_name : String) :
    OpResult (Option (Nat × String)) StreamStore :=
  if fails then ⟨none, ss, 0, 1⟩
  else
    match ss queue_name with
    | none => ⟨none, ss, 0, 0⟩
    | some st =>
        let st1 := if st.groups.any (fun gr => gr.name == group_name) then st
                   else { st with groups := st.groups ++ [⟨group_name, 0, []⟩] }
        match st1.readGroupOne group_name consumer_name with
        | none => ⟨none, updStream ss queue_name st1, 0, 0⟩
        | some (e, st2) => ⟨some (e.id, e.message), updStream ss queue_name st2, 0, 0⟩

/-- Embedding of `RedisDB.get_unacked_for`.  On a generic transport
failure the method logs one exception, reconnects once, and returns
None.  Otherwise: absent stream (no-such-key, swallowed) or absent
group returns None; XPENDING RANGE over ids 0..10000000000000 filtered
to the consumer with `count=1` yields the oldest pending entry of that
consumer, whose payload is then fetched by id with XRANGE `count=1` —
the normal XREADGROUP path is never touched and the store is left
unchanged.  An empty XRANGE would make `msg[0]` raise, landing in the
logged-and-reconnect branch. -/
def RedisDB.get_unacked_for (fails : Bool) (ss : StreamStore)
    (consumer_name queue_name group_name : String) :
    OpResult (Option (Nat × String)) StreamStore :=
  if fails then ⟨none, ss, 1, 1⟩
  else
    match ss queue_name with
    | none => ⟨none, ss, 0, 0⟩
    | some st =>
        match st.groups.find? (fun gr => gr.name == group_name) with
        | none => ⟨none, ss, 0, 0⟩
        | some gr =>
            match (sortById (gr.pending.filter (fun p =>
                p.consumer == consumer_name
                  && decide (p.message_id ≤ 10000000000000)))).take 1 with
            | [] => ⟨none, ss, 0, 0⟩
            | p :: _ =>
                match (st.entries.filter (fun e => decide (p.message_id ≤ e.id))).take 1 with
                | [] => ⟨none, ss, 1, 1⟩
                | e :: _ => ⟨some (e.id, e.message), ss, 0, 0⟩

/-- Embedding of `RedisDB.queue_info`: looks the group up in XINFO
GROUPS.  On failure (including an absent stream, whose no-such-key
error is logged here since this method has no `"key"` filter) it logs
one warning and returns None with no reconnect — this method never
calls `self.__open__()`. -/
def RedisDB.queue_info (fails : Bool) (ss : StreamStore) (queue group_name : String) :
    OpResult (Option StreamGroup) StreamStore :=
  if fails then ⟨none, ss, 0, 1⟩
  else
    match ss queue with
    | none => ⟨none, ss, 0, 1⟩
    | some st =>
        match st.groups.find? (fun gr => gr.name == group_name) with
        | none => ⟨none, ss, 0, 0⟩
        | some gr => ⟨some gr, ss, 0, 0⟩

/-- Minimal view of the persisted knowledge graph as the pipeline checks
it: the node list.  Edge data and node attributes play no role in any
claim about `graphrag/general/index.py`; emptiness does, because
Python's `if not self.graph:` on a networkx graph is true exactly when
the graph has zero nodes. -/
structure Graph where
  nodes : List String
deriving DecidableEq

/-- Truthiness test the pipelines apply to the fetched graph: true when
`get_graph` returned no graph at all or a graph with no nodes. -/
def graphFalsy : Option Graph → Bool
  | none => true
  | some g => g.nodes.isEmpty

/-- Observable actions of one pipeline invocation, in program order.
`acquire` records the outcome of `acquire_lock` inside `__enter__`;
`release` is `release_lock` run by `__exit__`; `getGraph`, `mergeGraph`,
`pagerank` and `persistGraph` are the calls to the external
collaborators `get_graph`, `graph_merge`,
`update_nodes_pagerank_nhop_neighbour` and `set_graph`; `callbackCode`
and `callbackMsg` are progress-callback invocations with and without an
explicit status code; `resolutionCall` and `communityCall` run the
`EntityResolution` and `CommunityReportsExtractor` collaborators;
`indexDelete` and `indexInsert` are `settings.docStoreConn.delete` and
`settings.docStoreConn.insert`. -/
inductive PEvent where
  | acquire (success : Bool)
  | getGraph
  | mergeGraph
  | pagerank
  | persistGraph
  | release
  | callbackCode (code : Int)
  | callbackMsg
  | resolutionCall
  | communityCall
  | indexDelete
  | indexInsert
deriving DecidableEq

/-- Event trace of the `with RedisDistributedLock(kb_id, 60*30):` block
of `Dealer.__init__` (lines 78-116 of `graphrag/general/index.py`).
Python runs `__enter__`, which calls `acquire_lock` and returns `self`
on success and `None` on failure; since `__enter__` returns normally
either way, the `with` statement executes the body unconditionally, so
the body events below do not depend on `acquired`.  The body loads the
stored graph, merges when one exists, recomputes pagerank and persists;
`__exit__` then releases. -/
def dealerTrace (acquired : Bool) (oldGraph : Option Graph) : List PEvent :=
  [.acquire acquired] ++
  ([.getGraph]
    ++ (if oldGraph.isSome then [.mergeGraph] else [])
    ++ [.pagerank, .persistGraph]) ++
  [.release]

/-- Document-id computation of `Dealer.__init__`: line 48 builds
`docids = list(set([docid for docid,_ in chunks]))`, and lines 104-106
extend it with the previously stored ids and deduplicate again whenever
`old_doc_ids` is non-empty.  Python's `set` drops order; the embedding
uses `List.dedup`, which keeps first occurrences, and the theorems about
it are order-free.  The result is what line 111 hands to `set_graph`. -/
def dealerDocids (chunks : List (String × String)) (old_doc_ids : List String) :
    List String :=
  let docids := (chunks.map Prod.fst).dedup
  if old_doc_ids.isEmpty then docids else (docids ++ old_doc_ids).dedup

/-- Event trace of `WithResolution.__init__` (lines 119-168).  The
`with` body runs unconditionally (same context-manager semantics as in
`dealerTrace`).  A falsy fetched graph logs, reports code -1 through
the callback when one was supplied, and returns from `__init__` — the
`return` still triggers `__exit__` (release) and skips everything after
the `with` block.  Otherwise the body reports the fetch, runs entity
resolution, reports completion, recomputes pagerank and persists; after
release, three index-record deletions run outside the lock. -/
def withResolutionTrace (acquired : Bool) (g : Option Graph) (hasCallback : Bool) :
    List PEvent :=
  [.acquire acquired, .getGraph] ++
  (if graphFalsy g then
    (if hasCallback then [.callbackCode (-1)] else []) ++ [.release]
  else
    (if hasCallback then [.callbackMsg] else [])
      ++ [.resolutionCall]
      ++ (if hasCallback then [.callbackMsg] else [])
      ++ [.pagerank, .persistGraph, .release,
          .indexDelete, .indexDelete, .indexDelete])

/-- Event trace of `WithCommunity.__init__` (lines 171-240), with
`nReports` community reports returned by the extractor.  Same
context-manager and early-return structure as `withResolutionTrace`;
on the non-falsy path the community extractor runs, the graph is
persisted and released, then outside the lock one callback report, one
deletion of the old community-report records and one index insertion
per report. -/
def withCommunityTrace (acquired : Bool) (g : Option Graph) (hasCallback : Bool)
    (nReports : Nat) : List PEvent :=
  [.acquire acquired, .getGraph] ++
  (if graphFalsy g then
    (if hasCallback then [.callbackCode (-1)] else []) ++ [.release]
  else
    (if hasCallback then [.callbackMsg] else [])
      ++ [.communityCall, .persistGraph, .release]
      ++ (if hasCallback then [.callbackMsg] else [])
      ++ [.indexDelete]
      ++ List.replicate nReports .indexInsert)

/-- C1: the spec requires that a lock-acquisition timeout abort the
pipeline before any graph mutation, the critical-section body running
only when acquire succeeded.  The code violates this: `__enter__`
returns `None` instead of raising when `acquire_lock` fails, and a
`with` statement runs its body whenever `__enter__` returns normally,
so all three pipelines execute load, merge, metric recomputation and
persist without holding the lock.  This theorem evaluates the embedded
traces at the failing input `acquired = false` and a present stored
graph: the persist event still occurs. -/
theorem lock_timeout_body_still_runs :
    PEvent.persistGraph ∈ dealerTrace false (some ⟨["E1"]⟩)
    ∧ PEvent.persistGraph ∈ withResolutionTrace false (some ⟨["E1"]⟩) true
    ∧ PEvent.persistGraph ∈ withCommunityTrace false (some ⟨["E1"]⟩) true 1 := by
  decide

/-- C2 counterexample: the claim says no operation exposed by the lock
deletes the lock record unconditionally, but the exposed static method
`clean_lock` is a bare DEL: at the concrete stores below it deletes the
record whichever token is stored, without any comparison. -/
theorem clean_lock_deletes_unconditionally :
    RedisDistributedLock.clean_lock
      (fun k => if k = "kb1" then some "tokenA" else none) "kb1" "kb1" = none
    ∧ RedisDistributedLock.clean_lock
      (fun k => if k = "kb1" then some "tokenB" else none) "kb1" "kb1" = none
    ∧ (fun k => if k = "kb1" then some "tokenA" else (none : Option String)) "kb1"
        = some "tokenA" := by
  decide

/-- C2 amended: `release_lock` deletes the lock record only when the
object had acquired and the stored value equals its token (the Lua
compare-and-delete, one atomic step, touching no other key), but the
exposed static `clean_lock` deletes the record unconditionally. -/
theorem lock_delete_discipline (l : RedisDistributedLock) (s : Store) (k : String) :
    ((l.release_lock s).2 k =
      if k = l.lock_key ∧ l.lock_acquired = true ∧ s l.lock_key = some l.lock_value
      then none else s k)
    ∧ ∀ (s2 : Store) (key : String), RedisDistributedLock.clean_lock s2 key key = none := by
  refine ⟨?_, fun s2 key => by simp [RedisDistributedLock.clean_lock]⟩
  unfold RedisDistributedLock.release_lock
  by_cases hA : l.lock_acquired = true <;>
    by_cases hV : s l.lock_key = some l.lock_value <;>
      by_cases hK : k = l.lock_key <;>
        simp [hA, hV, hK]

/-- C3: with the lock acquired, releasing while the stored value differs
from this holder's token leaves every key unchanged (a subsequent GET
returns the same value), and releasing while it matches deletes the
record. -/
theorem release_lock_integrity (l : RedisDistributedLock) (s : Store)
    (h : l.lock_acquired = true) :
    (s l.lock_key ≠ some l.lock_value → ∀ k, (l.release_lock s).2 k = s k)
    ∧ (s l.lock_key = some l.lock_value → (l.release_lock s).2 l.lock_key = none) := by
  unfold RedisDistributedLock.release_lock
  constructor
  · intro hne k
    simp [h, hne]
  · intro he
    simp [h, he]

/-- C3 witness: a holder of the lock for key kb1 with matching stored
token deletes the record on release. -/
theorem release_lock_integrity_witness :
    ((⟨"kb1", "tok", 1800, 10, true⟩ : RedisDistributedLock).lock_acquired = true)
    ∧ ((⟨"kb1", "tok", 1800, 10, true⟩ : RedisDistributedLock).release_lock
        (fun k => if k = "kb1" then some "tok" else none)).2 "kb1" = none :=
  ⟨rfl,
   (release_lock_integrity ⟨"kb1", "tok", 1800, 10, true⟩
      (fun k => if k = "kb1" then some "tok" else none) rfl).2 (by decide)⟩

/-- C4: releasing a lock that was never acquired is a no-op on the store
(and on the object); after one successful acquire, the first release
deletes the record and a second release of the resulting object changes
nothing and raises nothing. -/
theorem release_lock_idempotent (l : RedisDistributedLock) (s : Store)
    (hflag : l.lock_acquired = false)
    (hacq : (l.acquire_attempt s).2.2 = true) :
    l.release_lock s = (l, s)
    ∧ ((l.acquire_attempt s).1.release_lock (l.acquire_attempt s).2.1).2 l.lock_key = none
    ∧ ((l.acquire_attempt s).1.release_lock (l.acquire_attempt s).2.1).1.release_lock
        ((l.acquire_attempt s).1.release_lock (l.acquire_attempt s).2.1).2
      = (l.acquire_attempt s).1.release_lock (l.acquire_attempt s).2.1 := by
  cases hk : s l.lock_key with
  | some v =>
      exfalso
      unfold RedisDistributedLock.acquire_attempt at hacq
      rw [hk] at hacq
      simp at hacq
  | none =>
      simp [RedisDistributedLock.acquire_attempt, RedisDistributedLock.release_lock,
            hk, hflag]

/-- C4 witness: a never-acquired lock object over the empty store
satisfies both hypotheses, and its release is a no-op. -/
theorem release_lock_idempotent_witness :
    ((⟨"kb1", "tok", 1800, 10, false⟩ : RedisDistributedLock).lock_acquired = false)
    ∧ ((⟨"kb1", "tok", 1800, 10, false⟩ : RedisDistributedLock).acquire_attempt
        (fun _ => none)).2.2 = true
    ∧ (⟨"kb1", "tok", 1800, 10, false⟩ : RedisDistributedLock).release_lock
        (fun _ => none)
      = (⟨"kb1", "tok", 1800, 10, false⟩, fun _ => none) :=
  ⟨rfl, rfl,
   (release_lock_idempotent ⟨"kb1", "tok", 1800, 10, false⟩ (fun _ => none)
      rfl rfl).1⟩

/-- C9: the document-id collection handed to `set_graph` is the
duplicate-free set union of the batch's document ids and the previously
stored ids: its underlying finite set is the union of the two inputs'
sets and it has no duplicates.  Instantiating the ids with d1, d2 and
d2, d3 gives exactly the set of d1, d2, d3 of the spec's example. -/
theorem dealer_docids_union (chunks : List (String × String))
    (old_doc_ids : List String) :
    (dealerDocids chunks old_doc_ids).toFinset
      = (chunks.map Prod.fst).toFinset ∪ old_doc_ids.toFinset
    ∧ (dealerDocids chunks old_doc_ids).Nodup := by
  unfold dealerDocids
  by_cases h : old_doc_ids.isEmpty
  · rw [List.isEmpty_iff] at h
    subst h
    refine ⟨?_, by simp [List.nodup_dedup]⟩
    ext a
    simp [List.mem_dedup]
  · refine ⟨?_, by simp [h, List.nodup_dedup]⟩
    ext a
    simp [h, List.mem_dedup]

/-- C10: when the fetched graph is absent or empty, both the resolution
and the community pipeline report code -1 through the progress callback
(when one is supplied) and abort: no collaborator call, no persist, no
index deletion and no index insertion occur, whatever the lock outcome
was. -/
theorem missing_graph_aborts (a cb : Bool) (g : Option Graph) (n : Nat)
    (h : graphFalsy g = true) :
    (PEvent.persistGraph ∉ withResolutionTrace a g cb
      ∧ PEvent.resolutionCall ∉ withResolutionTrace a g cb
      ∧ PEvent.indexDelete ∉ withResolutionTrace a g cb
      ∧ PEvent.indexInsert ∉ withResolutionTrace a g cb
      ∧ (cb = true → PEvent.callbackCode (-1) ∈ withResolutionTrace a g cb))
    ∧ (PEvent.persistGraph ∉ withCommunityTrace a g cb n
      ∧ PEvent.communityCall ∉ withCommunityTrace a g cb n
      ∧ PEvent.indexDelete ∉ withCommunityTrace a g cb n
      ∧ PEvent.indexInsert ∉ withCommunityTrace a g cb n
      ∧ (cb = true → PEvent.callbackCode (-1) ∈ withCommunityTrace a g cb n)) := by
  unfold withResolutionTrace withCommunityTrace
  cases cb <;> simp [h]

/-- C10 witness: with the graph absent, a supplied callback and a
successful acquire, no persist happens and the code -1 report does. -/
theorem missing_graph_aborts_witness :
    graphFalsy none = true
    ∧ PEvent.persistGraph ∉ withResolutionTrace true none true
    ∧ PEvent.callbackCode (-1) ∈ withCommunityTrace true none true 0 :=
  ⟨rfl, (missing_graph_aborts true true none 0 rfl).1.1,
   (missing_graph_aborts true true none 0 rfl).2.2.2.2.2 rfl⟩

/-- C7: producing message M to a fresh stream, consuming it through the
consumer group without acknowledging, and then calling the
unacked-recovery function for the same consumer returns exactly M's
payload — the oldest (here only) pending entry of that consumer,
fetched by id — and leaves the store untouched, bypassing the normal
read path. -/
theorem queue_at_least_once_delivery (M q g c : String) :
    let ss0 : StreamStore := fun _ => none
    let r1 := RedisDB.queue_product false ss0 q M
    let r2 := RedisDB.queue_consumer false r1.state q g c
    let r3 := RedisDB.get_unacked_for false r2.state c q g
    r1.result = true
    ∧ r2.result = some (1, M)
    ∧ r3.result = some (1, M)
    ∧ r3.state = r2.state := by
  simp [RedisDB.queue_product, RedisDB.queue_consumer, RedisDB.get_unacked_for,
        updStream, xadd, RStream.readGroupOne, sortById, insertById]

/-- C8: consuming from a stream that has two messages but no consumer
group yet creates the group at the stream origin (no group before the
first consume, the created group after it) and therefore delivers the
messages produced before the first consume call, exactly one entry per
call, assigned to the given consumer in the pending list; a further
consume with nothing new returns nothing. -/
theorem queue_consumer_spec (q g c M1 M2 : String) :
    let ss0 : StreamStore := fun _ => none
    let s1 := (RedisDB.queue_product false ss0 q M1).state
    let s2 := (RedisDB.queue_product false s1 q M2).state
    let r1 := RedisDB.queue_consumer false s2 q g c
    let r2 := RedisDB.queue_consumer false r1.state q g c
    let r3 := RedisDB.queue_consumer false r2.state q g c
    (s2 q).map RStream.groups = some []
    ∧ r1.result = some (1, M1)
    ∧ (r1.state q).map RStream.groups = some [⟨g, 1, [⟨1, c⟩]⟩]
    ∧ r2.result = some (2, M2)
    ∧ r3.result = none := by
  simp [RedisDB.queue_product, RedisDB.queue_consumer, updStream, xadd,
        RStream.readGroupOne]

/-- C6 counterexample: the claim requires every listed operation to
attempt a single reconnect on transport failure, but on a failing
connection `queue_info` and `queue_product` and `queue_consumer`
perform zero reconnects (none of them ever calls `self.__open__()`). -/
theorem queue_ops_no_reconnect :
    (RedisDB.queue_info true (fun _ => none) "q1" "g1").reconnects = 0
    ∧ (RedisDB.queue_product true (fun _ => none) "q1" "m1").reconnects = 0
    ∧ (RedisDB.queue_consumer true (fun _ => none) "q1" "g1" "c1").reconnects = 0 :=
  ⟨rfl, rfl, rfl⟩

/-- C6 amended: no operation propagates a transport failure and each
returns its type-appropriate neutral value with the store untouched,
but the reconnect and logging behavior differs by operation: the
plain key-value operations and `get_unacked_for` log one warning and
reconnect once; `queue_product` logs its three failed attempts and
returns False without reconnecting; `queue_consumer` and `queue_info`
log once and return None without reconnecting. -/
theorem redis_ops_failure_semantics (st : KVStore) (ss : StreamStore)
    (k m v q g c : String) (score mn mx : ℚ) (cnt expiry : Nat) :
    RedisDB.exist false true st k = ⟨none, st, 1, 1⟩
    ∧ RedisDB.get false true st k = ⟨none, st, 1, 1⟩
    ∧ RedisDB.set_obj true st k v expiry = ⟨false, st, 1, 1⟩
    ∧ RedisDB.set true st k v expiry = ⟨false, st, 1, 1⟩
    ∧ RedisDB.sadd true st k m = ⟨false, st, 1, 1⟩
    ∧ RedisDB.srem true st k m = ⟨false, st, 1, 1⟩
    ∧ RedisDB.smembers true st k = ⟨none, st, 1, 1⟩
    ∧ RedisDB.zadd true st k m score = ⟨false, st, 1, 1⟩
    ∧ RedisDB.zcount true st k mn mx = ⟨0, st, 1, 1⟩
    ∧ RedisDB.zpopmin true st k cnt = ⟨none, st, 1, 1⟩
    ∧ RedisDB.zrangebyscore true st k mn mx = ⟨none, st, 1, 1⟩
    ∧ RedisDB.transaction true st k v expiry = ⟨false, st, 1, 1⟩
    ∧ RedisDB.queue_product true ss q m = ⟨false, ss, 0, 3⟩
    ∧ RedisDB.queue_consumer true ss q g c = ⟨none, ss, 0, 1⟩
    ∧ RedisDB.get_unacked_for true ss c q g = ⟨none, ss, 1, 1⟩
    ∧ RedisDB.queue_info true ss q g = ⟨none, ss, 0, 1⟩ :=
  ⟨rfl, rfl, rfl, rfl, rfl, rfl, rfl, rfl, rfl, rfl, rfl, rfl, rfl, rfl, rfl, rfl⟩

/-- The backoff duration is never negative (it is at least 0.1 s). -/
theorem backoff_nonneg (e t : ℚ) : 0 ≤ backoff e t :=
  le_trans (by norm_num) (le_max_left (1 / 10) ((e - t) / 10))

/-- Once the clock has reached the deadline the loop returns at once,
whatever fuel is left. -/
theorem acquireLoop_stop (env : Nat → Bool) (e : ℚ) (fuel : Nat) (t : ℚ) (a : Nat)
    (h : e ≤ t) : acquireLoop env e fuel t a = ⟨false, t, []⟩ := by
  cases fuel with
  | zero => rfl
  | succ n => simp [acquireLoop, not_lt.mpr h]

/-- Every sleep the loop records lasts exactly `max(0.1, remaining/10)`
computed at the moment the sleep starts. -/
theorem acquireLoop_sleep_formula (env : Nat → Bool) (e : ℚ) :
    ∀ (fuel : Nat) (t : ℚ) (a : Nat) (p : ℚ × ℚ),
      p ∈ (acquireLoop env e fuel t a).sleeps → p.2 = backoff e p.1 := by
  intro fuel
  induction fuel with
  | zero =>
      intro t a p hp
      simp [acquireLoop] at hp
  | succ n ih =>
      intro t a p hp
      by_cases ht : t < e
      · by_cases henv : env a = true
        · simp [acquireLoop, ht, henv] at hp
        · simp [acquireLoop, ht, henv] at hp
          rcases hp with h1 | h2
          · rw [h1]
          · exact ih _ _ _ h2
      · simp [acquireLoop, ht] at hp

/-- The loop ends no later than one backoff interval past the deadline:
starting at `t ≤ e` it returns by `e + backoff e t`. -/
theorem acquireLoop_final_le (env : Nat → Bool) (e : ℚ) :
    ∀ (fuel : Nat) (t : ℚ) (a : Nat), t ≤ e →
      (acquireLoop env e fuel t a).finalTime ≤ e + backoff e t := by
  intro fuel
  induction fuel with
  | zero =>
      intro t a h
      calc (acquireLoop env e 0 t a).finalTime = t := rfl
        _ ≤ e + backoff e t := le_add_of_le_of_nonneg h (backoff_nonneg e t)
  | succ n ih =>
      intro t a h
      by_cases ht : t < e
      · by_cases henv : env a = true
        · simp only [acquireLoop, ht, if_true, henv]
          exact le_add_of_le_of_nonneg h (backoff_nonneg e t)
        · simp only [acquireLoop, ht, if_true, henv, if_false, Bool.false_eq_true]
          by_cases ht2 : t + backoff e t ≤ e
          · calc (acquireLoop env e n (t + backoff e t) (a + 1)).finalTime
                ≤ e + backoff e (t + backoff e t) := ih _ _ ht2
              _ ≤ e + backoff e t := by
                  apply add_le_add_left
                  apply max_le_max (le_refl (1 / 10))
                  have hstep : e - (t + backoff e t) ≤ e - t := by
                    have := backoff_nonneg e t
                    linarith
                  exact (div_le_div_iff_of_pos_right (by norm_num)).mpr hstep
          · rw [acquireLoop_stop env e n (t + backoff e t) (a + 1) (le_of_not_le ht2)]
            have : t + backoff e t ≤ e + backoff e t := by linarith
            exact this
      · rw [acquireLoop_stop env e (n + 1) t a (le_of_not_lt ht)]
        show t ≤ e + backoff e t
        exact le_add_of_le_of_nonneg h (backoff_nonneg e t)

/-- The loop reports success only when some attempt's SET-NX succeeded. -/
theorem acquireLoop_acquired_env (env : Nat → Bool) (e : ℚ) :
    ∀ (fuel : Nat) (t : ℚ) (a : Nat),
      (acquireLoop env e fuel t a).acquired = true → ∃ k, env k = true := by
  intro fuel
  induction fuel with
  | zero =>
      intro t a hacq
      simp [acquireLoop] at hacq
  | succ n ih =>
      intro t a hacq
      by_cases ht : t < e
      · by_cases henv : env a = true
        · exact ⟨a, henv⟩
        · simp only [acquireLoop, ht, if_true, henv, if_false, Bool.false_eq_true] at hacq
          exact ih _ _ hacq
      · simp [acquireLoop, ht] at hacq

/-- When no attempt can ever succeed the loop reports failure. -/
theorem acquireLoop_all_false (env : Nat → Bool) (e : ℚ) (fuel : Nat) (t : ℚ) (a : Nat)
    (h : ∀ k, env k = false) : (acquireLoop env e fuel t a).acquired = false := by
  cases hacq : (acquireLoop env e fuel t a).acquired with
  | false => rfl
  | true =>
      obtain ⟨k, hk⟩ := acquireLoop_acquired_env env e fuel t a hacq
      rw [h k] at hk
      exact absurd hk (by simp)

/-- With fuel at least ten times the remaining time, the loop never
stops for lack of fuel: it either acquires or genuinely reaches the
deadline.  Each iteration sleeps at least 0.1 s, so the remaining time
times ten bounds the remaining iterations. -/
theorem acquireLoop_reaches_deadline (env : Nat → Bool) (e : ℚ) :
    ∀ (fuel : Nat) (t : ℚ) (a : Nat), (e - t) * 10 ≤ (fuel : ℚ) →
      (acquireLoop env e fuel t a).acquired = true
      ∨ e ≤ (acquireLoop env e fuel t a).finalTime := by
  intro fuel
  induction fuel with
  | zero =>
      intro t a hfuel
      right
      have : e ≤ t := by
        simp only [Nat.cast_zero] at hfuel
        nlinarith
      rw [acquireLoop_stop env e 0 t a this]
      exact this
  | succ n ih =>
      intro t a hfuel
      by_cases ht : t < e
      · by_cases henv : env a = true
        · left
          simp [acquireLoop, ht, henv]
        · simp only [acquireLoop, ht, if_true, henv, if_false, Bool.false_eq_true]
          apply ih
          have hb : (1 : ℚ) / 10 ≤ backoff e t := le_max_left _ _
          have hcast : ((n + 1 : ℕ) : ℚ) = (n : ℚ) + 1 := by push_cast; ring
          rw [hcast] at hfuel
          nlinarith
      · right
        rw [acquireLoop_stop env e (n + 1) t a (le_of_not_lt ht)]
        exact le_of_not_lt ht

/-- C5 amended: `acquire_lock` repeatedly attempts the atomic SET-NX
with TTL while the clock is before the deadline; between failed
attempts it sleeps exactly `max(0.1, remaining/10)`; it reports False
when no attempt succeeded (and True only when one did); the loop stops
for time, not fuel: it acquires or runs to the deadline.  It may
however return up to one backoff interval after the deadline, never
more: the final clock is at most `t0 + timeout + max(0.1, timeout/10)`.
The original claim's "never blocks past the timeout" is refuted by
`acquire_lock_blocks_past_timeout`. -/
theorem acquire_lock_spec (env : Nat → Bool) (t0 timeout : ℚ) (h : 0 ≤ timeout) :
    (∀ p ∈ (acquire_lock env t0 timeout).sleeps, p.2 = backoff (t0 + timeout) p.1)
    ∧ ((∀ k, env k = false) → (acquire_lock env t0 timeout).acquired = false)
    ∧ ((acquire_lock env t0 timeout).acquired = true → ∃ k, env k = true)
    ∧ (acquire_lock env t0 timeout).finalTime ≤ t0 + timeout + max (1 / 10) (timeout / 10)
    ∧ ((acquire_lock env t0 timeout).acquired = true
        ∨ t0 + timeout ≤ (acquire_lock env t0 timeout).finalTime) := by
  have hb : backoff (t0 + timeout) t0 = max (1 / 10) (timeout / 10) := by
    unfold backoff
    congr 2
    ring
  refine ⟨?_, ?_, ?_, ?_, ?_⟩
  · intro p hp
    exact acquireLoop_sleep_formula env (t0 + timeout) _ t0 1 p hp
  · intro hk
    exact acquireLoop_all_false env (t0 + timeout) _ t0 1 hk
  · intro hacq
    exact acquireLoop_acquired_env env (t0 + timeout) _ t0 1 hacq
  · have := acquireLoop_final_le env (t0 + timeout)
      ((⌈timeout * 10⌉).toNat + 1) t0 1 (by linarith)
    rw [hb] at this
    calc (acquire_lock env t0 timeout).finalTime
        ≤ (t0 + timeout) + max (1 / 10) (timeout / 10) := this
      _ = t0 + timeout + max (1 / 10) (timeout / 10) := by ring_nf
  · apply acquireLoop_reaches_deadline
    have h1 : (timeout * 10 : ℚ) ≤ (⌈timeout * 10⌉ : ℚ) := Int.le_ceil _
    have h2 : ((⌈timeout * 10⌉ : ℤ) : ℚ) ≤ ((⌈timeout * 10⌉.toNat : ℕ) : ℚ) := by
      exact_mod_cast Int.self_le_toNat _
    have h3 : (((⌈timeout * 10⌉.toNat + 1 : ℕ)) : ℚ)
        = ((⌈timeout * 10⌉.toNat : ℕ) : ℚ) + 1 := by push_cast; ring
    rw [h3]
    have : (t0 + timeout - t0) * 10 = timeout * 10 := by ring
    rw [this]
    linarith

/-- C5 witness: the hypothesis holds at timeout one second, and there
the final clock is within one backoff interval of the deadline. -/
theorem acquire_lock_spec_witness :
    ((0 : ℚ) ≤ 1)
    ∧ (acquire_lock (fun _ => true) 0 1).finalTime
        ≤ 0 + 1 + max (1 / 10) (1 / 10) :=
  ⟨by norm_num, (acquire_lock_spec (fun _ => true) 0 1 (by norm_num)).2.2.2.1⟩

/-- C5 counterexample to "never blocks past the timeout": with the key
held throughout and a 0.25 s acquisition timeout, the loop sleeps 0.1 s
three times (the while condition still held at 0.2 s) and returns at
0.3 s — 0.05 s past the deadline. -/
theorem acquire_lock_blocks_past_timeout :
    (acquire_lock (fun _ => false) 0 (1 / 4)).acquired = false
    ∧ (acquire_lock (fun _ => false) 0 (1 / 4)).finalTime = 3 / 10
    ∧ (0 : ℚ) + 1 / 4 < 3 / 10 := by
  have hc : (⌈((1 : ℚ) / 4) * 10⌉) = 3 := by
    rw [Int.ceil_eq_iff]
    norm_num
  unfold acquire_lock
  rw [hc]
  norm_num [acquireLoop, backoff, max_def]
